import Mathlib

/-!
Verification development for the `matchcaller` bracket simulator
(`src/matchcaller/simulator/bracket_simulator.py`, data model in
`src/matchcaller/models/match.py`).

The Python code is embedded shallowly:

* machine integers / epoch timestamps become `Int`;
* Python floats used by progress computations become `Rat` (all the float
  arithmetic the embedded claims touch is exact at these magnitudes:
  `0.75` and `0.5` are dyadic, and `total * 0.75` is exact for any list
  length a real snapshot can have, so the thresholds are embedded as the
  equivalent exact integer inequalities `4*c < 3*t` and `2*c < t`);
* `None`-able fields become `Option`;
* match ids and dependency target ids (`id : str | int`,
  `typeId : str | int | None` in `models/match.py`) are embedded as `Int`,
  mirroring the `int(source_set_id)` coercion the simulator applies;
* Python's stable `list.sort(key=...)` is embedded as Mathlib's stable
  `List.insertionSort` ordered by the same key (a stable sort for a total
  preorder is unique, so this is exact);
* `jump_to_time`, which indexes `timeline_events[-1]` without a guard,
  returns `Option Simulator`, `none` embedding the uncaught `IndexError`.
-/

namespace MatchCaller

/-- Match lifecycle state constants from `models/match.py` (`class MatchState`). -/
def MatchState.WAITING : Int := 1

/-- Ready-to-be-called state constant (`MatchState.READY = 2`). -/
def MatchState.READY : Int := 2

/-- Completed state constant (`MatchState.COMPLETED = 3`). -/
def MatchState.COMPLETED : Int := 3

/-- In-progress state constant (`MatchState.IN_PROGRESS = 6`). -/
def MatchState.IN_PROGRESS : Int := 6

/-- Python `x or d` on an optional integer: `None` and `0` are falsy. -/
def pyOrInt : Option Int → Int → Int
  | none, d => d
  | some v, d => if v = 0 then d else v

/-- Python `x or d` on an optional string: `None` and `""` are falsy. -/
def pyOrStr : Option String → String → String
  | none, d => d
  | some v, d => if v = "" then d else v

/-- Python list slicing `l[:n]`: a negative stop counts from the end of the
list (`stop = max 0 (len l + n)`); `Int.toNat` clamps negatives to zero
exactly as Python clamps the stop index. -/
def pySlice {α : Type} (l : List α) (n : Int) : List α :=
  if 0 ≤ n then l.take n.toNat else l.take ((l.length : Int) + n).toNat

/-- Python `int(x)` on a float: truncation toward zero. -/
def pyTrunc (q : Rat) : Int := if 0 ≤ q then q.floor else q.ceil

/-- Player record (`models/match.py PlayerData`); only the tag participates in
the simulator's logic, the optional numeric id never does. -/
structure PlayerData where
  tag : String
deriving Repr, DecidableEq

/-- Bracket dependency slot source (`models/match.py EntrantSource`). -/
structure EntrantSource where
  type : String
  typeId : Option Int
deriving Repr, DecidableEq

/-- Simulation context stamp written onto each returned match copy
(`_simulation_context` in `get_current_state`). -/
structure SimContext where
  current_time : Int
  start_time : Int
  is_simulation : Bool
deriving Repr, DecidableEq

/-- Match record (`models/match.py MatchData`).  The `round` field models the
extra (`model_config extra = allow`) attribute read by
`match_copy.get("round", 1)`; stations/streams are omitted as the simulator
never reads them. -/
structure MatchData where
  id : Int
  display_name : Option String := none
  displayName : Option String := none
  poolName : Option String := none
  phase_group : Option String := none
  phase_name : Option String := none
  player1 : PlayerData
  player2 : PlayerData
  state : Int
  created_at : Option Int := none
  started_at : Option Int := none
  completed_at : Option Int := none
  updated_at : Option Int := none
  updatedAt : Option Int := none
  startedAt : Option Int := none
  round : Option Int := none
  entrant1_source : Option EntrantSource := none
  entrant2_source : Option EntrantSource := none
  simulation_context : Option SimContext := none
deriving Repr, DecidableEq

/-- Timeline event (`models/match.py TimelineEvent`); `mtch` embeds the field
called `match` in the source (a reserved word in Lean). -/
structure TimelineEvent where
  timestamp : Int
  type : String
  match_id : Int
  state : Int
  mtch : MatchData
deriving Repr, DecidableEq

/-- Tournament metadata (`models/match.py TournamentMetadata`). -/
structure TournamentMetadata where
  event_name : String
  tournament_name : String
  total_matches : Int
deriving Repr, DecidableEq

/-- Loaded snapshot (`models/match.py TournamentData`). -/
structure TournamentData where
  metadata : TournamentMetadata
  «matches» : List MatchData
  duration_minutes : Int
deriving Repr, DecidableEq

/-- Result of `get_current_state` (`models/match.py TournamentState`). -/
structure TournamentState where
  event_name : String
  tournament_name : String
  sets : List MatchData
deriving Repr, DecidableEq

/-- Result of `get_simulation_progress` (`models/match.py
SimulationProgress`); the purely cosmetic `current_time_str` (a `ctime`
rendering) is omitted. -/
structure SimulationProgress where
  progress : Rat
  current_time : Int
  start_time : Int
  end_time : Int
  active_matches : Nat
deriving Repr, DecidableEq

/-- Mutable simulator state (`BracketSimulator.__init__`); `tournament_file`
and `speed_multiplier` are omitted as no embedded query reads them. -/
structure Simulator where
  tournament_data : Option TournamentData
  current_time : Int
  start_time : Int
  timeline_events : List TimelineEvent
  is_running : Bool
deriving Repr, DecidableEq

/-- Fresh simulator as produced by `BracketSimulator.__init__`. -/
def initSimulator : Simulator :=
  { tournament_data := none, current_time := 0, start_time := 0,
    timeline_events := [], is_running := false }

/-- Events contributed by one match in `build_timeline`: skipped entirely when
either tag is exactly `"TBD"`, otherwise one completion event (state 3) when
`completed_at` is set, then one start event (state 2) when `started_at` is
set, in that order. -/
def matchEvents (m : MatchData) : List TimelineEvent :=
  if m.player1.tag = "TBD" ∨ m.player2.tag = "TBD" then []
  else
    (match m.completed_at with
     | some c =>
         [{ timestamp := c, type := "match_completed", match_id := m.id,
            state := 3, mtch := m }]
     | none => []) ++
    (match m.started_at with
     | some st =>
         [{ timestamp := st, type := "match_started", match_id := m.id,
            state := 2, mtch := m }]
     | none => [])

/-- Timestamp order used by `events.sort(key=lambda e: e.timestamp)`. -/
def eventLe (a b : TimelineEvent) : Prop := a.timestamp ≤ b.timestamp

instance : DecidableRel eventLe := fun a b =>
  inferInstanceAs (Decidable (a.timestamp ≤ b.timestamp))

/-- Timeline built by `build_timeline`: per-match events in input order,
stably sorted ascending by timestamp. -/
def buildTimeline (td : TournamentData) : List TimelineEvent :=
  List.insertionSort eventLe (td.«matches».flatMap matchEvents)

/-- State mutation performed by `build_timeline`: store the sorted events and,
when any exist, set `start_time` one hour before the first; with zero events
it only logs a warning and leaves `start_time` untouched. -/
def buildTimelineRun (s : Simulator) : Simulator :=
  match s.tournament_data with
  | none => s
  | some td =>
      let events := buildTimeline td
      match events with
      | [] => { s with timeline_events := events }
      | e :: _ =>
          { s with timeline_events := events, start_time := e.timestamp - 3600 }

/-- Success path of `load_tournament` once the snapshot has parsed: stores the
data, builds the timeline, and returns `True` unconditionally — the
`except` clause only catches file/parse errors, which are below the level of
this data embedding. -/
def loadTournament (s : Simulator) (td : TournamentData) : Simulator × Bool :=
  (buildTimelineRun { s with tournament_data := some td }, true)

/-- Ids of completion events at or before the simulated clock
(`_get_available_matches`, first loop).  The Python `set` is embedded as a
list queried only through membership, which coincides with set membership. -/
def completedIds (s : Simulator) : List Int :=
  (s.timeline_events.filter fun e =>
    decide (e.timestamp ≤ s.current_time ∧ e.type = "match_completed")).map
    (fun e => e.match_id)

/-- Events for one match at or before the clock (`_determine_match_state`). -/
def relevantEvents (s : Simulator) (mid : Int) : List TimelineEvent :=
  s.timeline_events.filter fun e =>
    decide (e.match_id = mid ∧ e.timestamp ≤ s.current_time)

/-- Python `max(events, key=lambda e: e.timestamp)`: the first element whose
key is maximal (later elements replace only on strict increase). -/
def pyMaxByTimestamp : List TimelineEvent → Option TimelineEvent
  | [] => none
  | e :: es =>
      some (es.foldl (fun acc x => if acc.timestamp < x.timestamp then x else acc) e)

/-- State determination (`_determine_match_state`): no qualifying event means
Waiting; a latest `match_started` event means In Progress within 600 seconds
and Ready afterwards; a latest `match_created` event means Ready; anything
else defaults to Waiting. -/
def determineMatchState (s : Simulator) (mid : Int) : Int :=
  match pyMaxByTimestamp (relevantEvents s mid) with
  | none => MatchState.WAITING
  | some latest =>
      if latest.type = "match_started" then
        if s.current_time - latest.timestamp < 600 then MatchState.IN_PROGRESS
        else MatchState.READY
      else if latest.type = "match_created" then MatchState.READY
      else MatchState.WAITING

/-- Number of matches tagged with phase `"Bracket"` (`total_bracket`). -/
def bracketTotal (td : TournamentData) : Nat :=
  (td.«matches».filter fun m => decide (m.phase_name = some "Bracket")).length

/-- Number of `"Bracket"`-phase matches whose id is in the completed set.  The
source computes `sum(1 for mid in completed_matches for m in matches if
m.id == mid and m.phase_name == "Bracket")`; because the Python set holds each
id exactly once, that pair count is exactly this per-match membership count. -/
def bracketCompleted (td : TournamentData) (completed : List Int) : Nat :=
  (td.«matches».filter fun m =>
    decide (m.phase_name = some "Bracket" ∧ m.id ∈ completed)).length

/-- Phase-progression gate of `_get_available_matches`: `"Top 8"` needs at
least 75% of Bracket matches completed (`bracket_completed < total * 0.75`
embedded exactly as `4*c < 3*t`), `"Top 24"` needs at least 50% (`2*c < t`);
every other phase passes. -/
def phaseOk (td : TournamentData) (completed : List Int) (m : MatchData) : Bool :=
  if m.phase_name = some "Top 8" then
    decide (¬ (4 * (bracketCompleted td completed : Int) < 3 * (bracketTotal td : Int)))
  else if m.phase_name = some "Top 24" then
    decide (¬ (2 * (bracketCompleted td completed : Int) < (bracketTotal td : Int)))
  else true

/-- Dependency check for one slot source: only sources of type `"set"` are
checked, and only when `source_set_id` is truthy — Python `if source_set_id`
skips `None` and `0`. -/
def sourceOk (completed : List Int) : Option EntrantSource → Bool
  | none => true
  | some src =>
      if src.type = "set" then
        match src.typeId with
        | none => true
        | some tid => if tid = 0 then true else decide (tid ∈ completed)
      else true

/-- Combined prerequisite computation of `_get_available_matches`: the phase
gate and both slot-source checks (the Python code short-circuits through a
`prerequisites_met` flag; the net result is this conjunction). -/
def prerequisitesMet (td : TournamentData) (completed : List Int) (m : MatchData) : Bool :=
  phaseOk td completed m && sourceOk completed m.entrant1_source &&
    sourceOk completed m.entrant2_source

/-- Scan of `reversed(timeline_events)` looking for the event that switched the
match into its current state (`_get_available_matches`, updatedAt branch). -/
def findStateChange (s : Simulator) (mid : Int) (st : Int) : Option TimelineEvent :=
  s.timeline_events.reverse.find? fun e =>
    decide (e.match_id = mid ∧ e.timestamp ≤ s.current_time ∧
      ((st = MatchState.READY ∧ (e.type = "match_created" ∨ e.type = "match_ready")) ∨
       (st = MatchState.IN_PROGRESS ∧ e.type = "match_started") ∨
       (st = MatchState.WAITING ∧ e.type = "match_created")))

/-- First `match_started` event for the match at or before the clock
(`_get_available_matches`, startedAt branch). -/
def findStartedEvent (s : Simulator) (mid : Int) : Option TimelineEvent :=
  s.timeline_events.find? fun e =>
    decide (e.match_id = mid ∧ e.type = "match_started" ∧
      e.timestamp ≤ s.current_time)

/-- Value stored into `updatedAt` on the available copy: tournament start for
round-1 Bracket matches still Waiting, otherwise the state-change event's
timestamp, otherwise `updated_at or current_time`. -/
def decoratedUpdatedAt (s : Simulator) (m : MatchData) (st : Int) : Int :=
  if m.phase_name = some "Bracket" ∧ m.round.getD 1 = 1 ∧ st = MatchState.WAITING then
    s.start_time
  else
    match findStateChange s m.id st with
    | some e => e.timestamp
    | none => pyOrInt m.updated_at s.current_time

/-- Value stored into `startedAt` on the available copy. -/
def decoratedStartedAt (s : Simulator) (m : MatchData) : Option Int :=
  (findStartedEvent s m.id).map fun e => e.timestamp

/-- Field rewrites applied to `match_copy` in `_get_available_matches`:
`displayName` mirrored from `display_name` when present, `poolName` taken from
the `phase_group` attribute (the source's `.get("phase_group", ...)` always
finds the declared attribute, so the `phase_name`/`"Pool"` defaults are dead),
plus the derived state and simulation timestamps. -/
def decorate (s : Simulator) (m : MatchData) : MatchData :=
  { m with
    displayName := if m.display_name.isSome then m.display_name else m.displayName,
    poolName := m.phase_group,
    state := determineMatchState s m.id,
    updatedAt := some (decoratedUpdatedAt s m (determineMatchState s m.id)),
    startedAt := decoratedStartedAt s m }

/-- Body of `_get_available_matches` for a loaded snapshot: drop completed
matches, drop matches with a `"TBD"` tag, keep (decorated copies of) matches
whose prerequisites are met, in snapshot order. -/
def availableFrom (s : Simulator) (td : TournamentData) : List MatchData :=
  td.«matches».filterMap fun m =>
    if m.id ∈ completedIds s then none
    else if m.player1.tag = "TBD" ∨ m.player2.tag = "TBD" then none
    else if prerequisitesMet td (completedIds s) m then some (decorate s m)
    else none

/-- Method `_get_available_matches`: empty without loaded data. -/
def getAvailableMatches (s : Simulator) : List MatchData :=
  match s.tournament_data with
  | none => []
  | some td => availableFrom s td

/-- Pool label used to group matches in `_apply_tournament_constraints`:
`match.get("poolName") or "Unknown Pool"`. -/
def poolKey (m : MatchData) : String := pyOrStr m.poolName "Unknown Pool"

/-- Pool labels in first-occurrence order, mirroring the insertion-ordered
Python dict built by the grouping loop. -/
def poolNames (ms : List MatchData) : List String :=
  ms.foldl (fun acc m => if poolKey m ∈ acc then acc else acc ++ [poolKey m]) []

/-- Sort key of `match_priority`: `(3, 0)` for a match with an empty player
tag, otherwise `(state_priority.get(state, 3), updatedAt or 0)` with the
priority table In Progress 0, Ready 1, Waiting 2. -/
def matchPriorityKey (m : MatchData) : Int × Int :=
  if m.player1.tag = "" ∨ m.player2.tag = "" then (3, 0)
  else
    ((if m.state = MatchState.IN_PROGRESS then 0
      else if m.state = MatchState.READY then 1
      else if m.state = MatchState.WAITING then 2 else 3),
     m.updatedAt.getD 0)

/-- Order induced by `pool_matches.sort(key=match_priority)`: lexicographic
comparison of the key tuples, exactly Python's tuple order. -/
def prioLe (a b : MatchData) : Prop :=
  (matchPriorityKey a).1 < (matchPriorityKey b).1 ∨
    ((matchPriorityKey a).1 = (matchPriorityKey b).1 ∧
      (matchPriorityKey a).2 ≤ (matchPriorityKey b).2)

instance : DecidableRel prioLe := fun a b =>
  inferInstanceAs (Decidable ((matchPriorityKey a).1 < (matchPriorityKey b).1 ∨
    ((matchPriorityKey a).1 = (matchPriorityKey b).1 ∧
      (matchPriorityKey a).2 ≤ (matchPriorityKey b).2)))

/-- Stable ascending sort of a pool by `match_priority`, embedding Python's
stable `list.sort` (a stable sort for a total preorder is unique). -/
def sortPool (ms : List MatchData) : List MatchData :=
  List.insertionSort prioLe ms

/-- Predicate for the `in_progress` sublist of `_apply_tournament_constraints`. -/
def isInProgress (m : MatchData) : Bool :=
  decide (m.state = MatchState.IN_PROGRESS)

/-- Predicate for the `ready_waiting` sublist of
`_apply_tournament_constraints` (`state in [WAITING, READY]`). -/
def isReadyWaiting (m : MatchData) : Bool :=
  decide (m.state = MatchState.WAITING ∨ m.state = MatchState.READY)

/-- Members of `ms` falling into the pool named `name` (in input order, as the
grouping loop preserves it). -/
def poolFiltered (ms : List MatchData) (name : String) : List MatchData :=
  ms.filter fun m => decide (poolKey m = name)

/-- Per-pool body of `_apply_tournament_constraints`: always emit the
in-progress matches; inside the first two simulated hours also emit every
Ready/Waiting match; afterwards emit `ready_waiting[:remaining_slots]` with
`remaining_slots = max_concurrent - len(in_progress)` — note this is a Python
slice, so a negative `remaining_slots` drops elements from the end instead of
yielding the empty list. -/
def applyPool (s : Simulator) (ms : List MatchData) (acc : List MatchData)
    (name : String) : List MatchData :=
  let pool := poolFiltered ms name
  let sorted := sortPool pool
  let in_progress := sorted.filter isInProgress
  let ready_waiting := sorted.filter isReadyWaiting
  if s.current_time ≤ s.start_time + 7200 then
    acc ++ in_progress ++ ready_waiting
  else
    let max_concurrent : Int := min 4 (max 2 ((pool.length : Int) / 3))
    let remaining_slots : Int := max_concurrent - (in_progress.length : Int)
    acc ++ in_progress ++ pySlice ready_waiting remaining_slots

/-- Method `_apply_tournament_constraints`: an empty input is returned as is;
otherwise pools are processed in first-occurrence order and their surviving
matches concatenated. -/
def applyTournamentConstraints (s : Simulator) (ms : List MatchData) :
    List MatchData :=
  if ms = [] then ms
  else (poolNames ms).foldl (applyPool s ms) []

/-- Stamp written by `get_current_state` onto every returned match copy. -/
def stampContext (s : Simulator) (m : MatchData) : MatchData :=
  { m with simulation_context := some (SimContext.mk s.current_time s.start_time true) }

/-- Method `get_current_state`: a placeholder state without loaded data,
otherwise availability, organizer constraints, and the simulation-context
stamp applied to the match copies produced by `_get_available_matches`. -/
def getCurrentState (s : Simulator) : TournamentState :=
  match s.tournament_data with
  | none =>
      { event_name := "No Tournament", tournament_name := "No Tournament",
        sets := [] }
  | some td =>
      { event_name := td.metadata.event_name,
        tournament_name := td.metadata.tournament_name,
        sets := (applyTournamentConstraints s (availableFrom s td)).map
          (stampContext s) }

/-- Method `get_current_state` with the simulator state threaded explicitly.
Every assignment in the source method body targets either a local or a copy
created by `match.copy()` inside `_get_available_matches` (the
`_simulation_context` loop included, which writes to those same copies), so
the simulator component is returned unchanged. -/
def getCurrentStateRun (s : Simulator) : TournamentState × Simulator :=
  (getCurrentState s, s)

/-- Method `get_simulation_progress`: an all-zero record without timeline
events, otherwise the clamped ratio of elapsed simulated time.  Python would
raise `ZeroDivisionError` when `end_time == start_time`; the `Rat` embedding
yields `0` there, and every theorem below that touches the ratio carries
hypotheses putting `start_time` strictly below `end_time`, as holds for every
state produced by `build_timeline`. -/
def getSimulationProgress (s : Simulator) : SimulationProgress :=
  match s.timeline_events.getLast? with
  | none =>
      { progress := 0, current_time := 0, start_time := 0, end_time := 0,
        active_matches := 0 }
  | some last =>
      { progress :=
          min 1 (max 0 (((s.current_time : Rat) - (s.start_time : Rat)) /
            ((last.timestamp : Rat) - (s.start_time : Rat)))),
        current_time := s.current_time,
        start_time := s.start_time,
        end_time := last.timestamp,
        active_matches := (getCurrentState s).sets.length }

/-- Method `jump_to_time`: clamps the target into
`[start_time, timeline_events[-1].timestamp]`; with an empty timeline the
source raises an uncaught `IndexError` on `timeline_events[-1]`, embedded as
`none`. -/
def jumpToTime (s : Simulator) (timestamp : Int) : Option Simulator :=
  match s.timeline_events.getLast? with
  | none => none
  | some last =>
      some { s with current_time := max s.start_time (min timestamp last.timestamp) }

/-- Method `jump_to_progress`: returns silently on an empty timeline,
otherwise clamps the fraction into `[0, 1]` and delegates to `jump_to_time`
with the truncated target timestamp. -/
def jumpToProgress (s : Simulator) (progress : Rat) : Option Simulator :=
  match s.timeline_events.getLast? with
  | none => some s
  | some last =>
      let p := max 0 (min 1 progress)
      let target : Rat :=
        (s.start_time : Rat) + ((last.timestamp : Rat) - (s.start_time : Rat)) * p
      jumpToTime s (pyTrunc target)

/-- Spec-side ordering for claim C6 (written from the spec's words, for
refinement comparison only — not from the source): primary key ascending
state priority, secondary key most-recently-updated FIRST, i.e. `updatedAt`
descending. -/
def specPrioLe (a b : MatchData) : Prop :=
  (matchPriorityKey a).1 < (matchPriorityKey b).1 ∨
    ((matchPriorityKey a).1 = (matchPriorityKey b).1 ∧
      (matchPriorityKey b).2 ≤ (matchPriorityKey a).2)

instance : DecidableRel specPrioLe := fun a b =>
  inferInstanceAs (Decidable ((matchPriorityKey a).1 < (matchPriorityKey b).1 ∨
    ((matchPriorityKey a).1 = (matchPriorityKey b).1 ∧
      (matchPriorityKey b).2 ≤ (matchPriorityKey a).2)))

/-- Spec-side pool sort for claim C6: stable sort by `specPrioLe`. -/
def specSortPool (ms : List MatchData) : List MatchData :=
  List.insertionSort specPrioLe ms

instance : IsTotal MatchData prioLe where
  total a b := by unfold prioLe; omega

instance : IsTrans MatchData prioLe where
  trans a b c hab hbc := by unfold prioLe at *; omega

/-- Basic two-player match used to assemble concrete test snapshots. -/
def exM (i : Int) (st : Int) (t1 t2 : String) : MatchData :=
  { id := i, player1 := ⟨t1⟩, player2 := ⟨t2⟩, state := st }

/-- First timeline event of the C8 witness simulator. -/
def c8E0 : TimelineEvent :=
  { timestamp := 4000, type := "match_completed", match_id := 1, state := 3,
    mtch := exM 1 1 "P" "Q" }

/-- Last timeline event of the C8 witness simulator. -/
def c8E1 : TimelineEvent :=
  { timestamp := 5000, type := "match_started", match_id := 1, state := 2,
    mtch := exM 1 1 "P" "Q" }

/-- C8 witness simulator: the `build_timeline` relation
`start_time = first timestamp - 3600` holds, clock mid-tournament. -/
def c8Sim : Simulator :=
  { initSimulator with
      timeline_events := [c8E0, c8E1], start_time := 400, current_time := 2000 }

/-- Concrete match A for claim C1: id `0`, completes at time 100. -/
def c1A : MatchData := { exM 0 1 "A1" "A2" with completed_at := some 100 }

/-- Concrete match B for claim C1: depends on A through a slot source of type
`"set"` whose target id is A's id, `0`. -/
def c1B : MatchData :=
  { exM 1 1 "B1" "B2" with entrant1_source := some ⟨"set", some 0⟩ }

/-- Concrete snapshot for claim C1's counterexample. -/
def c1Td : TournamentData :=
  { metadata := ⟨"E", "T", 2⟩, «matches» := [c1A, c1B], duration_minutes := 1 }

/-- Loaded simulator for claim C1's counterexample, clock at 50 — strictly
before A's completion at 100. -/
def c1Sim : Simulator :=
  { (loadTournament initSimulator c1Td).1 with current_time := 50 }

/-- Base match for the C2 witness. -/
def c2Base : MatchData := exM 1 1 "P" "Q"

/-- Started event at time 1000 for the C2 witness. -/
def c2Ev : TimelineEvent :=
  { timestamp := 1000, type := "match_started", match_id := 1, state := 2,
    mtch := c2Base }

/-- Simulator 100 seconds after the start event for the C2 witness. -/
def c2SimB : Simulator :=
  { initSimulator with timeline_events := [c2Ev], current_time := 1100 }

/-- Concrete match for claim C3's counterexample: player1 tag is the empty
string (not `"TBD"`), and it has a start timestamp. -/
def c3M : MatchData := { exM 7 1 "" "Alice" with started_at := some 1000 }

/-- Concrete snapshot for claim C3's counterexample. -/
def c3Td : TournamentData :=
  { metadata := ⟨"E", "T", 1⟩, «matches» := [c3M], duration_minutes := 1 }

/-- Loaded simulator for claim C3's counterexample. -/
def c3Sim : Simulator := (loadTournament initSimulator c3Td).1

/-- Pool-"A" match maker for claim C4's failing input. -/
def c4M (i : Int) (st : Int) : MatchData :=
  { exM i st "P" "Q" with poolName := some "A", updatedAt := some i }

/-- Failing input for claim C4: one pool of 12 matches, 5 In Progress and 7
Waiting, so `max_concurrent = 4` and `remaining_slots = -1`. -/
def c4Matches : List MatchData :=
  [c4M 1 6, c4M 2 6, c4M 3 6, c4M 4 6, c4M 5 6,
   c4M 6 1, c4M 7 1, c4M 8 1, c4M 9 1, c4M 10 1, c4M 11 1, c4M 12 1]

/-- Simulator for claim C4's failing input: clock strictly past the first two
simulated hours (`start_time = 0`, `current_time = 8000 > 7200`). -/
def c4Sim : Simulator := { initSimulator with current_time := 8000 }

/-- Ready match updated at 10 for claim C6's counterexample. -/
def c6M1 : MatchData := { exM 1 2 "A" "B" with updatedAt := some 10 }

/-- Ready match updated at 20 for claim C6's counterexample. -/
def c6M2 : MatchData := { exM 2 2 "C" "D" with updatedAt := some 20 }

/-- Concrete match for claim C7's counterexample: has both timestamps but a
`"TBD"` player, so `build_timeline` filters it and the timeline is empty. -/
def c7M : MatchData :=
  { exM 1 1 "TBD" "X" with started_at := some 50, completed_at := some 60 }

/-- Concrete snapshot for claim C7's counterexample: parses fine, yet yields
zero usable timeline events. -/
def c7Td : TournamentData :=
  { metadata := ⟨"E", "T", 1⟩, «matches» := [c7M], duration_minutes := 0 }

/-- Completed nonzero-id match A for the amended-C1 witness. -/
def c1wA : MatchData := { exM 5 1 "A1" "A2" with completed_at := some 100 }

/-- Dependent match B for the amended-C1 witness: slot source of type `"set"`
targeting A's (truthy) id 5. -/
def c1wB : MatchData :=
  { exM 6 1 "B1" "B2" with entrant1_source := some ⟨"set", some 5⟩ }

/-- Snapshot for the amended-C1 witness. -/
def c1wTd : TournamentData :=
  { metadata := ⟨"E", "T", 2⟩, «matches» := [c1wA, c1wB], duration_minutes := 1 }

/-- Loaded simulator for the amended-C1 witness, clock strictly before A's
completion. -/
def c1wSim : Simulator :=
  { (loadTournament initSimulator c1wTd).1 with current_time := 50 }

/-- Ordinary completed match for the amended-C3 witness. -/
def c3wM : MatchData := { exM 3 1 "Mario" "Luigi" with completed_at := some 900 }

/-- Snapshot for the amended-C3 witness. -/
def c3wTd : TournamentData :=
  { metadata := ⟨"E", "T", 1⟩, «matches» := [c3wM], duration_minutes := 1 }

/-- Loaded simulator for the amended-C3 witness (clock still at 0, before the
only completion at 900, so the match is visible). -/
def c3wSim : Simulator := (loadTournament initSimulator c3wTd).1

/-- First match of the visible set of the amended-C3 witness. -/
def c3wX : MatchData := ((getCurrentState c3wSim).sets).headD (exM 0 1 "" "")

/-- First match of the available list of the amended-C3 witness. -/
def c3wY : MatchData := (getAvailableMatches c3wSim).headD (exM 0 1 "" "")

/-- First timeline event of the amended-C3 witness. -/
def c3wE : TimelineEvent := (buildTimeline c3wTd).headD c8E0

/-- Bracket-phase match maker for the C5 witness. -/
def c5wB (i : Int) (c : Option Int) : MatchData :=
  { exM i 1 "P" "Q" with phase_name := some "Bracket", completed_at := c }

/-- Top-8-phase match for the C5 witness. -/
def c5wT8 : MatchData := { exM 9 1 "R" "S" with phase_name := some "Top 8" }

/-- Snapshot for the C5 witness: four Bracket matches, three of which
complete early, and one Top 8 match. -/
def c5wTd : TournamentData :=
  { metadata := ⟨"E", "T", 5⟩,
    «matches» := [c5wB 1 (some 10), c5wB 2 (some 20), c5wB 3 (some 30),
                  c5wB 4 (some 10000), c5wT8],
    duration_minutes := 1 }

/-- Loaded simulator for the C5 witness: at time 100, exactly 3 of 4 Bracket
matches are completed, meeting the 75% threshold. -/
def c5wSim : Simulator :=
  { (loadTournament initSimulator c5wTd).1 with current_time := 100 }

/-- The decorated Top 8 match inside the available list of the C5 witness. -/
def c5wX : MatchData :=
  ((getAvailableMatches c5wSim).filter fun m => decide (m.id = 9)).headD
    (exM 0 1 "" "")

/-- A Python slice `l[:n]` is always a prefix of `l`, whatever the sign of
the bound. -/
theorem pySlice_eq_take {α : Type} (l : List α) (n : Int) :
    ∃ k, pySlice l n = l.take k := by
  unfold pySlice
  split
  · exact ⟨n.toNat, rfl⟩
  · exact ⟨((l.length : Int) + n).toNat, rfl⟩

/-- Elements of a Python slice come from the sliced list. -/
theorem pySlice_subset {α : Type} (l : List α) (n : Int) : pySlice l n ⊆ l := by
  obtain ⟨k, hk⟩ := pySlice_eq_take l n
  rw [hk]
  exact List.take_subset k l

/-- Membership in the code's stable pool sort is membership in the pool. -/
theorem mem_sortPool {x : MatchData} {ms : List MatchData} :
    x ∈ sortPool ms ↔ x ∈ ms :=
  (List.perm_insertionSort prioLe ms).mem_iff

/-- Case analysis of the events one match contributes to the timeline. -/
theorem mem_matchEvents {e : TimelineEvent} {m : MatchData}
    (h : e ∈ matchEvents m) :
    ¬ (m.player1.tag = "TBD" ∨ m.player2.tag = "TBD") ∧
    e.match_id = m.id ∧ e.mtch = m ∧
    ((e.type = "match_completed" ∧ m.completed_at = some e.timestamp) ∨
     (e.type = "match_started" ∧ m.started_at = some e.timestamp)) := by
  unfold matchEvents at h
  split at h
  · simp at h
  · rename_i htbd
    refine ⟨htbd, ?_⟩
    rcases List.mem_append.1 h with h1 | h1
    · cases hc : m.completed_at with
      | none => rw [hc] at h1; simp at h1
      | some c =>
          rw [hc] at h1
          simp only [List.mem_singleton] at h1
          subst h1
          exact ⟨rfl, rfl, Or.inl ⟨rfl, rfl⟩⟩
    · cases hc : m.started_at with
      | none => rw [hc] at h1; simp at h1
      | some st =>
          rw [hc] at h1
          simp only [List.mem_singleton] at h1
          subst h1
          exact ⟨rfl, rfl, Or.inr ⟨rfl, rfl⟩⟩

/-- Timeline membership reduces to per-match event membership. -/
theorem mem_buildTimeline {e : TimelineEvent} {td : TournamentData} :
    e ∈ buildTimeline td ↔ ∃ m, m ∈ td.«matches» ∧ e ∈ matchEvents m := by
  unfold buildTimeline
  rw [(List.perm_insertionSort eventLe _).mem_iff, List.mem_flatMap]

/-- Characterization of the completed-id set of `_get_available_matches`. -/
theorem mem_completedIds {mid : Int} {s : Simulator} :
    mid ∈ completedIds s ↔ ∃ e, e ∈ s.timeline_events ∧
      e.timestamp ≤ s.current_time ∧ e.type = "match_completed" ∧
      e.match_id = mid := by
  unfold completedIds
  simp only [List.mem_map, List.mem_filter, decide_eq_true_eq]
  constructor
  · rintro ⟨e, ⟨he, ht, hty⟩, hid⟩
    exact ⟨e, he, ht, hty, hid⟩
  · rintro ⟨e, he, ht, hty, hid⟩
    exact ⟨e, ⟨he, ht, hty⟩, hid⟩

/-- Characterization of membership in the available-match list. -/
theorem mem_availableFrom {s : Simulator} {td : TournamentData} {x : MatchData} :
    x ∈ availableFrom s td ↔ ∃ m, m ∈ td.«matches» ∧
      m.id ∉ completedIds s ∧
      ¬ (m.player1.tag = "TBD" ∨ m.player2.tag = "TBD") ∧
      prerequisitesMet td (completedIds s) m = true ∧
      x = decorate s m := by
  unfold availableFrom
  rw [List.mem_filterMap]
  constructor
  · rintro ⟨m, hm, hf⟩
    refine ⟨m, hm, ?_⟩
    by_cases h1 : m.id ∈ completedIds s
    · rw [if_pos h1] at hf; exact absurd hf (by simp)
    · rw [if_neg h1] at hf
      by_cases h2 : m.player1.tag = "TBD" ∨ m.player2.tag = "TBD"
      · rw [if_pos h2] at hf; exact absurd hf (by simp)
      · rw [if_neg h2] at hf
        by_cases h3 : prerequisitesMet td (completedIds s) m = true
        · rw [if_pos h3] at hf
          exact ⟨h1, h2, h3, (Option.some_inj.1 hf).symm⟩
        · rw [if_neg h3] at hf; exact absurd hf (by simp)
  · rintro ⟨m, hm, h1, h2, h3, rfl⟩
    exact ⟨m, hm, by rw [if_neg h1, if_neg h2, if_pos h3]⟩

/-- The decoration step never changes a match's id. -/
theorem decorate_id (s : Simulator) (m : MatchData) : (decorate s m).id = m.id := rfl

/-- The decoration step never changes the player tags. -/
theorem decorate_player1 (s : Simulator) (m : MatchData) :
    (decorate s m).player1 = m.player1 := rfl

/-- The decoration step never changes the player tags. -/
theorem decorate_player2 (s : Simulator) (m : MatchData) :
    (decorate s m).player2 = m.player2 := rfl

/-- The decoration step never changes the phase label. -/
theorem decorate_phase_name (s : Simulator) (m : MatchData) :
    (decorate s m).phase_name = m.phase_name := rfl

/-- The decoration step never changes the slot sources. -/
theorem decorate_entrant1 (s : Simulator) (m : MatchData) :
    (decorate s m).entrant1_source = m.entrant1_source := rfl

/-- The decoration step never changes the slot sources. -/
theorem decorate_entrant2 (s : Simulator) (m : MatchData) :
    (decorate s m).entrant2_source = m.entrant2_source := rfl

/-- The simulation-context stamp changes nothing but `simulation_context`. -/
theorem stampContext_player1 (s : Simulator) (m : MatchData) :
    (stampContext s m).player1 = m.player1 := rfl

/-- The simulation-context stamp changes nothing but `simulation_context`. -/
theorem stampContext_player2 (s : Simulator) (m : MatchData) :
    (stampContext s m).player2 = m.player2 := rfl

/-- Every match emitted for a single pool was already in the constraint
filter's input (or the accumulator). -/
theorem mem_applyPool {s : Simulator} {ms acc : List MatchData} {name : String}
    {x : MatchData} (h : x ∈ applyPool s ms acc name) : x ∈ acc ∨ x ∈ ms := by
  unfold applyPool at h
  have hpool : sortPool (poolFiltered ms name) ⊆ ms := fun y hy =>
    List.mem_of_mem_filter (mem_sortPool.1 hy)
  split at h
  · rcases List.mem_append.1 h with h1 | h1
    · rcases List.mem_append.1 h1 with h2 | h2
      · exact Or.inl h2
      · exact Or.inr (hpool (List.mem_of_mem_filter h2))
    · exact Or.inr (hpool (List.mem_of_mem_filter h1))
  · rcases List.mem_append.1 h with h1 | h1
    · rcases List.mem_append.1 h1 with h2 | h2
      · exact Or.inl h2
      · exact Or.inr (hpool (List.mem_of_mem_filter h2))
    · exact Or.inr (hpool (List.mem_of_mem_filter (pySlice_subset _ _ h1)))

/-- Auxiliary foldl invariant for `mem_applyTournamentConstraints`. -/
theorem mem_applyPool_foldl {s : Simulator} {ms : List MatchData} :
    ∀ (names : List String) (acc : List MatchData), (∀ y ∈ acc, y ∈ ms) →
      ∀ x ∈ names.foldl (applyPool s ms) acc, x ∈ ms := by
  intro names
  induction names with
  | nil => intro acc hacc x hx; exact hacc x hx
  | cons n ns ih =>
      intro acc hacc x hx
      refine ih (applyPool s ms acc n) ?_ x hx
      intro y hy
      rcases mem_applyPool hy with h | h
      · exact hacc y h
      · exact h

/-- The organizer-constraint filter only ever narrows the available list. -/
theorem mem_applyTournamentConstraints {s : Simulator} {ms : List MatchData}
    {x : MatchData} (h : x ∈ applyTournamentConstraints s ms) : x ∈ ms := by
  unfold applyTournamentConstraints at h
  split at h
  · exact h
  · exact mem_applyPool_foldl (poolNames ms) [] (by intro y hy; cases hy) x h

/-- Claim C2 (confirmed): for every match id and current_time,
`_determine_match_state` returns Waiting when the match has no timeline
events with timestamp at or before `current_time`; when the latest such event
(Python `max` over the qualifying events) is a started event, it returns
In Progress if `current_time` minus that event's timestamp is strictly less
than 600 seconds, and Ready otherwise. -/
theorem c2_state_determination (s : Simulator) (mid : Int) :
    (relevantEvents s mid = [] → determineMatchState s mid = MatchState.WAITING) ∧
    (∀ latest : TimelineEvent,
      pyMaxByTimestamp (relevantEvents s mid) = some latest →
      latest.type = "match_started" →
      determineMatchState s mid =
        if s.current_time - latest.timestamp < 600 then MatchState.IN_PROGRESS
        else MatchState.READY) := by
  constructor
  · intro h
    unfold determineMatchState
    rw [h]
    rfl
  · intro latest hmax htype
    unfold determineMatchState
    rw [hmax]
    simp only [if_pos htype]

/-- Witness for C2: a fresh simulator has no events at all, so any match is
Waiting; with one started event at time 1000 and the clock at 1100 the state
follows the 600-second rule. -/
theorem c2_state_determination_witness :
    determineMatchState initSimulator 1 = MatchState.WAITING ∧
    determineMatchState c2SimB 1 =
      (if c2SimB.current_time - c2Ev.timestamp < 600 then MatchState.IN_PROGRESS
       else MatchState.READY) :=
  ⟨(c2_state_determination initSimulator 1).1 (by decide),
   (c2_state_determination c2SimB 1).2 c2Ev (by decide) (by decide)⟩

/-- Claim C4 (code bug): at a single pool of 12 matches with 5 In Progress and
7 Waiting, past the two-hour opening window, `max_concurrent` is 4 and
`remaining_slots` is `4 - 5 = -1`; the Python slice
`ready_waiting[:remaining_slots]` then keeps all but the last Waiting match,
so 6 non-In-Progress matches are displayed although the claimed cap
`max_concurrent - count(InProgress)` is negative.  This theorem evaluates the
embedded filter at that failing input. -/
theorem c4_concurrency_cap_violation :
    c4Sim.start_time + 7200 < c4Sim.current_time ∧
    (c4Matches.filter isInProgress).length = 5 ∧
    min 4 (max 2 ((c4Matches.length : Int) / 3)) = 4 ∧
    ((applyTournamentConstraints c4Sim c4Matches).filter
      (fun m => !(isInProgress m))).length = 6 ∧
    ¬ ((((applyTournamentConstraints c4Sim c4Matches).filter
      (fun m => !(isInProgress m))).length : Int) ≤ 4 - 5) := by
  decide

/-- Claim C6 counterexample: two Ready matches in one pool, updated at 10 and
20: the code's sort puts the older update first (ascending `updatedAt`),
whereas the claimed order (most recent `updatedAt` first) would reverse
them. -/
theorem c6_counterexample :
    matchPriorityKey c6M1 = (1, 10) ∧ matchPriorityKey c6M2 = (1, 20) ∧
    sortPool [c6M1, c6M2] = [c6M1, c6M2] ∧
    specSortPool [c6M1, c6M2] = [c6M2, c6M1] ∧
    sortPool [c6M1, c6M2] ≠ specSortPool [c6M1, c6M2] := by
  decide

/-- Claim C6 as amended (corrected): the pool ranking used by
`_apply_tournament_constraints` is a stable sort of the pool — a permutation
ordered by ascending state priority (In Progress 0, Ready 1, Waiting 2,
missing-player or unknown state 3) and, within equal priority, by ascending
`updatedAt` (oldest update first, missing `updatedAt` read as 0) — and the
Ready/Waiting matches kept by the slice are a prefix of that order, whatever
the value of `remaining_slots`. -/
theorem c6_within_pool_ordering (pool : List MatchData) (n : Int) :
    (sortPool pool).Perm pool ∧
    List.Sorted prioLe (sortPool pool) ∧
    ∃ k, pySlice ((sortPool pool).filter isReadyWaiting) n =
      ((sortPool pool).filter isReadyWaiting).take k :=
  ⟨List.perm_insertionSort prioLe pool,
   List.sorted_insertionSort prioLe pool,
   pySlice_eq_take _ n⟩

/-- Claim C7 counterexample: a snapshot whose only match has a `"TBD"` player
parses fine but yields zero timeline events; `load_tournament` still returns
`True`, and subsequent queries silently return an empty schedule and zero
progress instead of signalling a "cannot simulate" condition. -/
theorem c7_counterexample :
    (loadTournament initSimulator c7Td).2 = true ∧
    (loadTournament initSimulator c7Td).1.timeline_events = [] ∧
    (getCurrentState (loadTournament initSimulator c7Td).1).sets = [] ∧
    (getSimulationProgress (loadTournament initSimulator c7Td).1).progress = 0 := by
  decide

/-- Claim C7 as amended (corrected): when the built timeline is empty,
`load_tournament` still reports success (returns `True`, only logging a
warning), and the progress query silently returns the all-zero record; no
explicit error condition is raised on the data path. -/
theorem c7_empty_timeline_silent (s : Simulator) (td : TournamentData)
    (h : buildTimeline td = []) :
    (loadTournament s td).2 = true ∧
    (loadTournament s td).1.timeline_events = [] ∧
    (getSimulationProgress (loadTournament s td).1).progress = 0 := by
  refine ⟨rfl, ?_, ?_⟩
  · show (buildTimelineRun { s with tournament_data := some td }).timeline_events = []
    unfold buildTimelineRun
    simp only [h]
  · show (getSimulationProgress
      (buildTimelineRun { s with tournament_data := some td })).progress = 0
    unfold buildTimelineRun
    simp only [h]
    rfl

/-- Witness for the amended C7 at the concrete all-TBD snapshot. -/
theorem c7_empty_timeline_silent_witness :
    buildTimeline c7Td = [] ∧
    (loadTournament initSimulator c7Td).2 = true ∧
    (loadTournament initSimulator c7Td).1.timeline_events = [] ∧
    (getSimulationProgress (loadTournament initSimulator c7Td).1).progress = 0 :=
  ⟨by decide,
   (c7_empty_timeline_silent initSimulator c7Td (by decide)).1,
   (c7_empty_timeline_silent initSimulator c7Td (by decide)).2.1,
   (c7_empty_timeline_silent initSimulator c7Td (by decide)).2.2⟩

/-- Claim C10 (confirmed): with an empty timeline, `jump_to_time` hits the
unguarded `timeline_events[-1]` and fails with an uncaught indexing error
(embedded as `none`), while `jump_to_progress` returns silently leaving the
simulator untouched; a non-empty timeline is `jump_to_time`'s implicit
precondition. -/
theorem c10_jump_empty_timeline (s : Simulator) (t : Int) (p : Rat)
    (h : s.timeline_events = []) :
    jumpToTime s t = none ∧ jumpToProgress s p = some s := by
  unfold jumpToTime jumpToProgress
  rw [h]
  exact ⟨rfl, rfl⟩

/-- Witness for C10 on the freshly initialized simulator. -/
theorem c10_jump_empty_timeline_witness :
    jumpToTime initSimulator 123456 = none ∧
    jumpToProgress initSimulator (1 / 2) = some initSimulator :=
  c10_jump_empty_timeline initSimulator 123456 (1 / 2) rfl

/-- In a timestamp-sorted event list the first timestamp bounds the last. -/
theorem head_le_getLast_of_sorted :
    ∀ (l : List TimelineEvent), List.Pairwise eventLe l →
      ∀ {a b : TimelineEvent}, l.head? = some a → l.getLast? = some b →
        a.timestamp ≤ b.timestamp := by
  intro l
  induction l with
  | nil => intro _ a b ha _; cases ha
  | cons x xs ih =>
      intro hp a b ha hb
      rw [List.head?_cons, Option.some_inj] at ha
      cases xs with
      | nil =>
          have hbx : b = x := by
            cases hb
            rfl
          rw [← ha, hbx]
      | cons y ys =>
          rw [List.getLast?_cons_cons] at hb
          have hbmem : b ∈ y :: ys := List.mem_of_getLast?_eq_some hb
          have hrel := (List.pairwise_cons.1 hp).1 b hbmem
          rw [← ha]
          exact hrel

/-- Claim C8 (confirmed): on a non-empty timeline in the shape
`build_timeline` produces (sorted, `start_time` one hour before the first
event), `get_simulation_progress().progress` equals
`(current_time - start_time) / (end_time - start_time)` clamped to `[0, 1]`,
it lies in `[0, 1]`, the denominator is strictly positive, and `jump_to_time`
with an arbitrary timestamp clamps `current_time` into
`[start_time, last event timestamp]`. -/
theorem c8_progress_bounds (s : Simulator) (e0 last : TimelineEvent) (t : Int)
    (h0 : s.timeline_events.head? = some e0)
    (hlast : s.timeline_events.getLast? = some last)
    (hst : s.start_time = e0.timestamp - 3600)
    (hsorted : List.Pairwise eventLe s.timeline_events) :
    (getSimulationProgress s).progress =
      min 1 (max 0 (((s.current_time : Rat) - (s.start_time : Rat)) /
        ((last.timestamp : Rat) - (s.start_time : Rat)))) ∧
    0 ≤ (getSimulationProgress s).progress ∧
    (getSimulationProgress s).progress ≤ 1 ∧
    s.start_time < last.timestamp ∧
    ∀ s', jumpToTime s t = some s' →
      s.start_time ≤ s'.current_time ∧ s'.current_time ≤ last.timestamp := by
  have hle : e0.timestamp ≤ last.timestamp :=
    head_le_getLast_of_sorted _ hsorted h0 hlast
  have hlt : s.start_time < last.timestamp := by omega
  refine ⟨?_, ?_, ?_, hlt, ?_⟩
  · simp only [getSimulationProgress, hlast]
  · simp only [getSimulationProgress, hlast]
    exact le_min (by norm_num) (le_max_left 0 _)
  · simp only [getSimulationProgress, hlast]
    exact min_le_left 1 _
  · intro s' hj
    simp only [jumpToTime, hlast, Option.some_inj] at hj
    rw [← hj]
    constructor
    · exact le_max_left _ _
    · exact max_le hlt.le (min_le_right t _)

/-- Witness for C8 on a concrete two-event timeline with an out-of-range
`jump_to_time` target. -/
theorem c8_progress_bounds_witness :
    (getSimulationProgress c8Sim).progress =
      min 1 (max 0 (((c8Sim.current_time : Rat) - (c8Sim.start_time : Rat)) /
        ((c8E1.timestamp : Rat) - (c8Sim.start_time : Rat)))) ∧
    0 ≤ (getSimulationProgress c8Sim).progress ∧
    (getSimulationProgress c8Sim).progress ≤ 1 ∧
    c8Sim.start_time < c8E1.timestamp ∧
    ∀ s', jumpToTime c8Sim 999999 = some s' →
      c8Sim.start_time ≤ s'.current_time ∧ s'.current_time ≤ c8E1.timestamp :=
  c8_progress_bounds c8Sim c8E0 c8E1 999999 (by decide) (by decide) (by decide)
    (by decide)

/-- Claim C9 (confirmed): `get_current_state` is a pure query — rerunning it
returns the same value and leaves the simulator state unchanged (every
assignment in the source targets copies produced by `match.copy()`), and its
result depends only on the loaded snapshot, the timeline, and the clock
fields, not on any other mutable state. -/
theorem c9_get_current_state_deterministic (s1 s2 : Simulator)
    (hd : s1.tournament_data = s2.tournament_data)
    (he : s1.timeline_events = s2.timeline_events)
    (hc : s1.current_time = s2.current_time)
    (hs : s1.start_time = s2.start_time) :
    (getCurrentStateRun s1).2 = s1 ∧
    (getCurrentStateRun ((getCurrentStateRun s1).2)).1 = (getCurrentStateRun s1).1 ∧
    getCurrentState s1 = getCurrentState s2 := by
  refine ⟨rfl, rfl, ?_⟩
  cases s1 with
  | mk td1 ct1 st1 tl1 r1 =>
      cases s2 with
      | mk td2 ct2 st2 tl2 r2 =>
          simp only at hd he hc hs
          subst hd he hc hs
          rfl

/-- Witness for C9: two simulators identical except for the `is_running`
flag produce the same state, and the query leaves the state unchanged. -/
theorem c9_get_current_state_deterministic_witness :
    (getCurrentStateRun c1Sim).2 = c1Sim ∧
    (getCurrentStateRun ((getCurrentStateRun c1Sim).2)).1 =
      (getCurrentStateRun c1Sim).1 ∧
    getCurrentState c1Sim = getCurrentState { c1Sim with is_running := true } :=
  c9_get_current_state_deterministic c1Sim { c1Sim with is_running := true }
    rfl rfl rfl rfl

/-- Unfolding of a passed slot-source check with a truthy target id. -/
theorem sourceOk_mem {completed : List Int} {src : EntrantSource}
    (h : sourceOk completed (some src) = true) (htype : src.type = "set")
    {tid : Int} (htid : src.typeId = some tid) (hnz : tid ≠ 0) :
    tid ∈ completed := by
  simp only [sourceOk, if_pos htype, htid] at h
  rw [if_neg hnz] at h
  exact of_decide_eq_true h

/-- Claim C1 counterexample: match A has id `0`; match B's slot source of type
`"set"` points at A's id, yet because Python's `if source_set_id:` treats the
id `0` as falsy the dependency check is skipped, and B is available at time
50, strictly before A's `completed_at = 100`. -/
theorem c1_counterexample :
    c1A.id = 0 ∧ c1A.completed_at = some 100 ∧
    c1B.entrant1_source = some ⟨"set", some c1A.id⟩ ∧
    c1Sim.current_time = 50 ∧ (50 : Int) < 100 ∧
    c1Sim.timeline_events = buildTimeline c1Td ∧
    c1B.id ∈ (getAvailableMatches c1Sim).map (fun m => m.id) := by
  decide

/-- Claim C1 as amended (corrected): restricted to truthy (non-null, nonzero)
dependency target ids — as Python's `if source_set_id:` skips the check for
`0` — and a snapshot with distinct match ids: if B's slot source of type
`"set"` targets A's nonzero id, then B never appears in the available list at
any clock strictly before A's `completed_at`; and in general every available
match has each of its `"set"`-type slot sources with a truthy target id
resolved inside the completed set (completion events at or before the
clock). -/
theorem c1_dependency_gating (s : Simulator) (td : TournamentData)
    (hd : s.tournament_data = some td)
    (htl : s.timeline_events = buildTimeline td)
    (hnd : (td.«matches».map MatchData.id).Nodup)
    (A B : MatchData) (hA : A ∈ td.«matches») (hB : B ∈ td.«matches»)
    (ca : Int) (hca : A.completed_at = some ca) (hnow : s.current_time < ca)
    (hsrc : B.entrant1_source = some ⟨"set", some A.id⟩ ∨
            B.entrant2_source = some ⟨"set", some A.id⟩)
    (hAid : A.id ≠ 0) :
    (∀ x ∈ getAvailableMatches s, x.id ≠ B.id) ∧
    (∀ x ∈ getAvailableMatches s, ∀ src : EntrantSource,
      (x.entrant1_source = some src ∨ x.entrant2_source = some src) →
      src.type = "set" → ∀ tid : Int, src.typeId = some tid → tid ≠ 0 →
      tid ∈ completedIds s) := by
  have hAnotdone : A.id ∉ completedIds s := by
    intro hmem
    obtain ⟨e, he, ht, hty, hid⟩ := mem_completedIds.1 hmem
    rw [htl] at he
    obtain ⟨m, hm, hev⟩ := mem_buildTimeline.1 he
    obtain ⟨_, hmid, _, hcase⟩ := mem_matchEvents hev
    rcases hcase with ⟨_, hcomp⟩ | ⟨hty2, _⟩
    · rw [hmid] at hid
      have hmA : m = A := List.inj_on_of_nodup_map hnd hm hA hid
      rw [hmA, hca] at hcomp
      have : ca = e.timestamp := Option.some_inj.1 hcomp
      omega
    · exact absurd (hty2.symm.trans hty) (by decide)
  have hgen : ∀ x ∈ getAvailableMatches s, ∀ src : EntrantSource,
      (x.entrant1_source = some src ∨ x.entrant2_source = some src) →
      src.type = "set" → ∀ tid : Int, src.typeId = some tid → tid ≠ 0 →
      tid ∈ completedIds s := by
    intro x hx src hsome htype tid htid hnz
    simp only [getAvailableMatches, hd] at hx
    obtain ⟨m, hm, h1, h2, h3, rfl⟩ := mem_availableFrom.1 hx
    unfold prerequisitesMet at h3
    rw [Bool.and_eq_true, Bool.and_eq_true] at h3
    obtain ⟨⟨_, hs1⟩, hs2⟩ := h3
    rcases hsome with hsome | hsome
    · rw [decorate_entrant1] at hsome
      rw [hsome] at hs1
      exact sourceOk_mem hs1 htype htid hnz
    · rw [decorate_entrant2] at hsome
      rw [hsome] at hs2
      exact sourceOk_mem hs2 htype htid hnz
  refine ⟨?_, hgen⟩
  intro x hx hxid
  simp only [getAvailableMatches, hd] at hx
  obtain ⟨m, hm, h1, h2, h3, rfl⟩ := mem_availableFrom.1 hx
  rw [decorate_id] at hxid
  have hmB : m = B := List.inj_on_of_nodup_map hnd hm hB hxid
  subst hmB
  unfold prerequisitesMet at h3
  rw [Bool.and_eq_true, Bool.and_eq_true] at h3
  obtain ⟨⟨_, hs1⟩, hs2⟩ := h3
  rcases hsrc with hsome | hsome
  · rw [hsome] at hs1
    exact hAnotdone (sourceOk_mem hs1 rfl rfl hAid)
  · rw [hsome] at hs2
    exact hAnotdone (sourceOk_mem hs2 rfl rfl hAid)

/-- Witness for the amended C1 at a concrete snapshot with nonzero ids: B
(id 6, depending on A = id 5, completed at 100) is absent from the available
list at time 50. -/
theorem c1_dependency_gating_witness :
    (∀ x ∈ getAvailableMatches c1wSim, x.id ≠ c1wB.id) ∧
    (∀ x ∈ getAvailableMatches c1wSim, ∀ src : EntrantSource,
      (x.entrant1_source = some src ∨ x.entrant2_source = some src) →
      src.type = "set" → ∀ tid : Int, src.typeId = some tid → tid ≠ 0 →
      tid ∈ completedIds c1wSim) :=
  c1_dependency_gating c1wSim c1wTd (by decide) (by decide) (by decide)
    c1wA c1wB (by decide) (by decide) 100 (by decide) (by decide)
    (Or.inl (by decide)) (by decide)

/-- Claim C3 counterexample: a match whose player1 tag is the empty string
(and not `"TBD"`) is surfaced by `get_current_state`, appears in the
available list, and generates a timeline event — the code only filters the
literal `"TBD"` tag, never the empty string. -/
theorem c3_counterexample :
    c3M.player1.tag = "" ∧
    ((getCurrentState c3Sim).sets.any fun m => decide (m.player1.tag = "")) = true ∧
    ((getAvailableMatches c3Sim).any fun m => decide (m.player1.tag = "")) = true ∧
    ((buildTimeline c3Td).any fun e => decide (e.mtch.player1.tag = "")) = true := by
  decide

/-- Claim C3 as amended (corrected): the exclusion covers exactly the `"TBD"`
sentinel — no match with either player tag equal to `"TBD"` ever appears in
`get_current_state().sets` or in the available list, and no such match
generates a timeline event; empty-string tags are not excluded. -/
theorem c3_tbd_exclusion (s : Simulator) (td : TournamentData) (x : MatchData)
    (e : TimelineEvent) :
    (x ∈ (getCurrentState s).sets →
      x.player1.tag ≠ "TBD" ∧ x.player2.tag ≠ "TBD") ∧
    (x ∈ getAvailableMatches s →
      x.player1.tag ≠ "TBD" ∧ x.player2.tag ≠ "TBD") ∧
    (e ∈ buildTimeline td →
      e.mtch.player1.tag ≠ "TBD" ∧ e.mtch.player2.tag ≠ "TBD") := by
  have havail : ∀ (td' : TournamentData) (z : MatchData),
      z ∈ availableFrom s td' → z.player1.tag ≠ "TBD" ∧ z.player2.tag ≠ "TBD" := by
    intro td' z hz
    obtain ⟨m, hm, h1, h2, h3, rfl⟩ := mem_availableFrom.1 hz
    push_neg at h2
    rw [decorate_player1, decorate_player2]
    exact h2
  refine ⟨?_, ?_, ?_⟩
  · intro hx
    cases htd : s.tournament_data with
    | none => simp only [getCurrentState, htd] at hx; cases hx
    | some td' =>
        simp only [getCurrentState, htd] at hx
        obtain ⟨y, hy, rfl⟩ := List.mem_map.1 hx
        have hy' := mem_applyTournamentConstraints hy
        have := havail td' y hy'
        rw [stampContext_player1, stampContext_player2]
        exact this
  · intro hx
    cases htd : s.tournament_data with
    | none => simp only [getAvailableMatches, htd] at hx; cases hx
    | some td' =>
        simp only [getAvailableMatches, htd] at hx
        exact havail td' x hx
  · intro he
    obtain ⟨m, hm, hev⟩ := mem_buildTimeline.1 he
    obtain ⟨htbd, _, hmtch, _⟩ := mem_matchEvents hev
    push_neg at htbd
    rw [hmtch]
    exact htbd

/-- Witness for the amended C3 at a concrete ordinary snapshot whose match is
visible, available, and has a timeline event. -/
theorem c3_tbd_exclusion_witness :
    c3wX.player1.tag ≠ "TBD" ∧ c3wY.player1.tag ≠ "TBD" ∧
    c3wE.mtch.player1.tag ≠ "TBD" :=
  ⟨((c3_tbd_exclusion c3wSim c3wTd c3wX c3wE).1 (by decide)).1,
   ((c3_tbd_exclusion c3wSim c3wTd c3wY c3wE).2.1 (by decide)).1,
   ((c3_tbd_exclusion c3wSim c3wTd c3wX c3wE).2.2 (by decide)).1⟩

/-- Claim C5 (confirmed): an available match whose phase label is exactly
`"Top 8"` implies at least 75% of the `"Bracket"`-phase matches are in the
completed set (embedded exactly as `3*total ≤ 4*completed`), a `"Top 24"`
match implies at least 50% (`total ≤ 2*completed`), and matches of any other
phase pass the phase gate unconditionally. -/
theorem c5_phase_gating (s : Simulator) (td : TournamentData)
    (hd : s.tournament_data = some td) (x : MatchData)
    (hx : x ∈ getAvailableMatches s) :
    (x.phase_name = some "Top 8" →
      3 * (bracketTotal td : Int) ≤ 4 * (bracketCompleted td (completedIds s) : Int)) ∧
    (x.phase_name = some "Top 24" →
      (bracketTotal td : Int) ≤ 2 * (bracketCompleted td (completedIds s) : Int)) ∧
    (∀ m : MatchData, m.phase_name ≠ some "Top 8" → m.phase_name ≠ some "Top 24" →
      phaseOk td (completedIds s) m = true) := by
  simp only [getAvailableMatches, hd] at hx
  obtain ⟨m, hm, h1, h2, h3, rfl⟩ := mem_availableFrom.1 hx
  unfold prerequisitesMet at h3
  rw [Bool.and_eq_true, Bool.and_eq_true] at h3
  obtain ⟨⟨hphase, _⟩, _⟩ := h3
  refine ⟨?_, ?_, ?_⟩
  · intro htop
    rw [decorate_phase_name] at htop
    unfold phaseOk at hphase
    rw [if_pos htop] at hphase
    have := of_decide_eq_true hphase
    omega
  · intro htop
    rw [decorate_phase_name] at htop
    have hne : ¬ m.phase_name = some "Top 8" := by
      rw [htop]
      intro hh
      exact absurd (Option.some_inj.1 hh) (by decide)
    unfold phaseOk at hphase
    rw [if_neg hne, if_pos htop] at hphase
    have := of_decide_eq_true hphase
    omega
  · intro m' hn8 hn24
    unfold phaseOk
    rw [if_neg hn8, if_neg hn24]

/-- Witness for C5: at time 100, three of four Bracket matches are completed
(75%), and the Top 8 match is present in the available list; a Bracket-phase
match passes the phase gate unconditionally. -/
theorem c5_phase_gating_witness :
    3 * (bracketTotal c5wTd : Int) ≤
      4 * (bracketCompleted c5wTd (completedIds c5wSim) : Int) ∧
    phaseOk c5wTd (completedIds c5wSim) (c5wB 1 (some 10)) = true :=
  ⟨(c5_phase_gating c5wSim c5wTd (by decide) c5wX (by decide)).1 (by decide),
   (c5_phase_gating c5wSim c5wTd (by decide) c5wX (by decide)).2.2
     (c5wB 1 (some 10)) (by decide) (by decide)⟩

end MatchCaller
